import Mathlib

/-!
Verification of the ERC-8004 facilitator service.

Shallow embedding of the facilitator's core logic:
* the feedback-authorization issuer (`generateFeedbackAuth`),
* the delegation-authorization verifier and the agent registrar
  (`registerAgent` in `src/services/registerService.ts`),
* registry/delegate address resolution (`src/config/env.ts`),
* the network-to-chain mapping (`mapX402NetworkToChain`),
* the two registration entry points of the HTTP service (`src/index.ts`).

Bytes are modelled as `List Nat` (each element < 256), addresses and other
hex data as `String`.  Cryptographic primitives (keccak256, ECDSA signing)
and the host's URL parser / ABI event decoder are taken as function
parameters, since they live in external libraries; everything the claims
depend on is translated from the repository's own code.
-/

/-! ## Bytes and hex encoding -/

/-- Big-endian byte string of fixed width `k` (bytes as `Nat < 256`). -/
def natToBytesBE : Nat → Nat → List Nat
  | 0, _ => []
  | k + 1, n => natToBytesBE k (n / 256) ++ [n % 256]

/-- UTF-8 encoding of one character (as in `Buffer.from(string)`).  The
`% 16` / `% 64` in the multi-byte leads are identities for every valid code
point and only make the byte bound structural. -/
def utf8EncodeCharNat (c : Char) : List Nat :=
  let n := c.toNat
  if n < 128 then [n]
  else if n < 2048 then [192 + n / 64, 128 + n % 64]
  else if n < 65536 then [224 + n / 4096 % 16, 128 + n / 64 % 64, 128 + n % 64]
  else [240 + n / 262144 % 16, 128 + n / 4096 % 64, 128 + n / 64 % 64,
    128 + n % 64]

/-- UTF-8 bytes of a string, as natural numbers. -/
def utf8Bytes (s : String) : List Nat :=
  (s.data.map utf8EncodeCharNat).flatten

/-- JavaScript `String.prototype.startsWith`. -/
def jsStartsWith (s pre : String) : Bool :=
  pre.data.isPrefixOf s.data

/-- Lowercase hex digit for a value < 16 (`Buffer.toString("hex")` digits). -/
def hexDigit (n : Nat) : Char :=
  if n < 10 then Char.ofNat (48 + n) else Char.ofNat (87 + n)

/-- Hex characters of a byte string, two lowercase digits per byte
(`Buffer.from(value).toString("hex")`). -/
def bytesToHexChars : List Nat → List Char
  | [] => []
  | b :: bs => hexDigit (b / 16 % 16) :: hexDigit (b % 16) :: bytesToHexChars bs

/-- Hex string of a byte string. -/
def bytesToHex (bs : List Nat) : String :=
  ⟨bytesToHexChars bs⟩

/-- Value of one hex character (both cases), if it is a hex digit. -/
def hexDigitVal (c : Char) : Option Nat :=
  if 48 ≤ c.toNat ∧ c.toNat ≤ 57 then some (c.toNat - 48)
  else if 97 ≤ c.toNat ∧ c.toNat ≤ 102 then some (c.toNat - 87)
  else if 65 ≤ c.toNat ∧ c.toNat ≤ 70 then some (c.toNat - 55)
  else none

/-- Decode a hex character sequence into bytes; fails on an odd length or a
non-hex character. -/
def hexCharsToBytes : List Char → Option (List Nat)
  | [] => some []
  | [_] => none
  | c₁ :: c₂ :: rest =>
    match hexDigitVal c₁, hexDigitVal c₂, hexCharsToBytes rest with
    | some h, some l, some bs => some ((16 * h + l) :: bs)
    | _, _, _ => none

/-! ## Feedback-authorization issuer (`generateFeedbackAuth`)

From the facilitator snapshot `src/unnamed/part_003`, lines 1309-1418.
`encodeAbiParameters` over the seven static types (uint256 / address /
uint64 / uint256 / uint256 / address / address) is the concatenation of one
32-byte head word per field; numeric values of addresses are < 2^160 and
of uint64 fields < 2^64, so each fits one word. -/

/-- One 32-byte ABI head word (big-endian, left-zero-padded). -/
def abiWord (n : Nat) : List Nat := natToBytesBE 32 n

/-- `encodeAbiParameters` of the `FeedbackAuth` struct: seven fields in the
fixed declared order `[agentId, clientAddress, indexLimit, expiry, chainId,
identityRegistry, signerAddress]` (part_003 lines 1326-1345). -/
def encodeFeedbackAuthStruct (agentId clientAddress indexLimit expiry chainId
    identityRegistry signerAddress : Nat) : List Nat :=
  abiWord agentId ++ abiWord clientAddress ++ abiWord indexLimit ++
    abiWord expiry ++ abiWord chainId ++ abiWord identityRegistry ++
    abiWord signerAddress

/-- The EIP-191 personal-message tag `"\x19Ethereum Signed Message:\n32"`
(part_003 line 1352). -/
def personalMessageTag : List Nat :=
  utf8Bytes "\x19Ethereum Signed Message:\n32"

/-- `expiry || BigInt(Math.floor(Date.now() / 1000) + 3600)` (part_003 line
1323); a JavaScript `0n` is falsy, so a zero expiry also selects the
one-hour default. -/
def effectiveExpiry (expiry : Option Nat) (now : Nat) : Nat :=
  match expiry with
  | some e => if e = 0 then now + 3600 else e
  | none => now + 3600

/-- `generateFeedbackAuth` (part_003 lines 1309-1418): ABI-encode the
seven-field struct, hash it, hash again under the EIP-191 tag, sign that
digest, and append the 65-byte signature to the raw struct encoding.
`keccak256` and `sign` stand for the external hash and signer (local or
remote); `now` is the invocation time in Unix seconds. -/
def generateFeedbackAuth (keccak256 : List Nat → List Nat)
    (sign : List Nat → List Nat) (agentId clientAddress agentOwnerAddress
    chainId : Nat) (expiry : Option Nat) (indexLimit : Nat)
    (identityRegistry : Nat) (now : Nat) : List Nat :=
  let expiryTime := effectiveExpiry expiry now
  let feedbackAuthStruct := encodeFeedbackAuthStruct agentId clientAddress
    indexLimit expiryTime chainId identityRegistry agentOwnerAddress
  let structHash := keccak256 feedbackAuthStruct
  let eip191Hash := keccak256 (personalMessageTag ++ structHash)
  feedbackAuthStruct ++ sign eip191Hash

/-! ## Network-to-chain mapping (`mapX402NetworkToChain`, part_003 lines 238-288)

The URL parser of the JavaScript runtime is a parameter `parseHostname`
(returning the hostname on success, `none` when `new URL(...)` throws). -/

/-- The viem chains the mapper can return. -/
inductive EvmChain where
  | anvil
  | base
  | baseSepolia
deriving DecidableEq, Repr

/-- The chain id carried by each viem chain object. -/
def EvmChain.chainId : EvmChain → Nat
  | .anvil => 31337
  | .base => 8453
  | .baseSepolia => 84532

/-- JavaScript `String.prototype.includes` for a non-empty pattern. -/
def strContains (s pat : String) : Bool :=
  (s.splitOn pat).length != 1

/-- `isLocalRPC` (part_003 lines 238-246): hostname is `localhost` or
`127.0.0.1` when the URL parses, substring check otherwise. -/
def isLocalRPC (parseHostname : String → Option String) :
    Option String → Bool
  | none => false
  | some rpcUrl =>
    match parseHostname rpcUrl with
    | some host => host == "localhost" || host == "127.0.0.1"
    | none => strContains rpcUrl "localhost" || strContains rpcUrl "127.0.0.1"

/-- JavaScript `parseInt` on the text after `eip155:`: the leading decimal
digits, if any. -/
def leadingNat (s : String) : Option Nat :=
  let digits := s.takeWhile Char.isDigit
  if digits.isEmpty then none else digits.toNat?

/-- `mapX402NetworkToChain` (part_003 lines 248-288): a local RPC always
selects the anvil chain; otherwise CAIP-2 `eip155:<id>` names or the V1
names `base-sepolia` / `base` are mapped, everything else is unsupported. -/
def mapX402NetworkToChain (parseHostname : String → Option String)
    (network rpcUrl : Option String) : Option EvmChain :=
  if isLocalRPC parseHostname rpcUrl then some .anvil
  else
    match network with
    | none => none
    | some net =>
      if jsStartsWith net "eip155:" then
        match leadingNat (net.drop 7) with
        | some 84532 => some .baseSepolia
        | some 8453 => some .base
        | some 31337 => some .anvil
        | _ => none
      else
        match net with
        | "base-sepolia" => some .baseSepolia
        | "base" => some .base
        | _ => none

/-! ## Address configuration (`src/config/env.ts`) -/

/-- JavaScript `a || b` for a possibly-unset string environment variable:
an unset or empty string is falsy. -/
def jsOrString (a : Option String) (b : String) : String :=
  match a with
  | some v => if v = "" then b else v
  | none => b

/-- Identity registry deployed on Ethereum Sepolia and Base Sepolia. -/
def sepoliaIdentityRegistry : String :=
  "0x8004A818BFB912233c491871b3d84c89A494BD9e"

/-- Reputation registry deployed on Ethereum Sepolia and Base Sepolia. -/
def sepoliaReputationRegistry : String :=
  "0x8004B663056A597Dffe9eCcC1965A193B7388713"

/-- Identity registry deployed on Ethereum Mainnet and Base Mainnet. -/
def mainnetIdentityRegistry : String :=
  "0x8004A169FB4a3325136EB29fA0ceB6D2e539a432"

/-- Reputation registry deployed on Ethereum Mainnet and Base Mainnet. -/
def mainnetReputationRegistry : String :=
  "0x8004BAa17C55a88189AE136b182e5fdA19dE9b63"

/-- Value of a non-empty all-digit character sequence, else `none`. -/
def charsToNat (cs : List Char) : Option Nat :=
  if cs ≠ [] ∧ cs.all Char.isDigit then
    some (cs.foldl (fun acc c => acc * 10 + (c.toNat - 48)) 0)
  else none

/-- `getChainIdFromNetwork` (env.ts lines 37-41): for a CAIP-2 name, the
`Number` of the segment after `eip155:`, else undefined.  A non-digit
segment is treated as undefined; the empty segment is really `Number("") =
0`, but a chain id of 0 selects the same fallback row of the address table
as undefined does, so the observable result agrees. -/
def getChainIdFromNetwork (network : String) : Option Nat :=
  if jsStartsWith network "eip155:" then
    charsToNat ((network.data.drop 7).takeWhile (fun c => c ≠ ':'))
  else none

/-- `getDefaultErc8004Addresses` (env.ts lines 47-75): (identity,
reputation) registry defaults keyed on the chain id of a CAIP-2 network
name; every unknown network falls back to the Sepolia pair ("so existing
local dev doesn't break"). -/
def getDefaultErc8004Addresses (network : String) : String × String :=
  let chainId := getChainIdFromNetwork network
  if chainId = some 11155111 ∨ chainId = some 84532 then
    (sepoliaIdentityRegistry, sepoliaReputationRegistry)
  else if chainId = some 1 ∨ chainId = some 8453 then
    (mainnetIdentityRegistry, mainnetReputationRegistry)
  else (sepoliaIdentityRegistry, sepoliaReputationRegistry)

/-- `getDefaultErc8004IdentityRegistry` (env.ts lines 43-45). -/
def getDefaultErc8004IdentityRegistry (chainId : Nat) : String :=
  (getDefaultErc8004Addresses ("eip155:" ++ toString chainId)).1

/-- The exported constant `ERC8004_IDENTITY_REGISTRY_ADDRESS` (env.ts
lines 108-112): the environment variable when set and non-empty, else the
built-in default for the global `ERC8004_NETWORK` — hence always a
non-empty address string. -/
def erc8004IdentityRegistryAddress (envVar : Option String)
    (networkEnv : String) : String :=
  jsOrString envVar (getDefaultErc8004Addresses networkEnv).1

/-- Registry resolution in `registerAgent` (registerService.ts lines
57-59): `ERC8004_IDENTITY_REGISTRY_ADDRESS ||
getDefaultErc8004IdentityRegistry(chainId)`.  The left operand is the
always-truthy exported constant, so the per-request-chain fallback can
never fire. -/
def resolveIdentityRegistryAddress (registryConstant : String)
    (chainId : Nat) : String :=
  if registryConstant = "" then getDefaultErc8004IdentityRegistry chainId
  else registryConstant

/-- Built-in delegate contract defaults (env.ts lines 118-121). -/
def delegateContractDefaults : Nat → Option String
  | 11155111 => some "0x252367B463f77EFe33c151E9d9821788090EC4b5"
  | 8453 => some "0x097f9491a25c1D5087298db04B11c9A461dD0661"
  | _ => none

/-- Environment-derived configuration used by `registerAgent`. -/
structure FacilitatorConfig where
  /-- The raw `ERC8004_IDENTITY_REGISTRY_ADDRESS` environment variable. -/
  identityRegistryEnv : Option String
  /-- `ERC8004_NETWORK` after normalization (env.ts lines 80-82; defaults
  to `eip155:8453`). -/
  erc8004Network : String
  /-- `DELEGATE_CONTRACT_ADDRESS_<chainId>` overrides. -/
  delegateOverride : Nat → Option String
  /-- `DELEGATE_CONTRACT_ADDRESS` single-chain fallback. -/
  delegateFallback : Option String

/-- `getDelegateContractAddress` (env.ts lines 125-128): per-chain override,
else built-in default, else the single-chain fallback. -/
def getDelegateContractAddress (cfg : FacilitatorConfig) (chainId : Nat) :
    Option String :=
  match cfg.delegateOverride chainId with
  | some a => some a
  | none =>
    match delegateContractDefaults chainId with
    | some a => some a
    | none => cfg.delegateFallback

/-! ## Delegation-authorization verifier (registerService.ts lines 80-95) -/

/-- JavaScript `String.prototype.toLowerCase` on the ASCII strings in play
(addresses): lowercase every character. -/
def jsToLower (s : String) : String :=
  ⟨s.data.map Char.toLower⟩

/-- The mismatch error message built at registerService.ts line 93. -/
def delegateMismatchMsg (got expected : String) (chainId : Nat) : String :=
  "Authorization address (" ++ got ++
    ") does not match delegate contract address (" ++ expected ++
    ") for chainId " ++ toString chainId

/-- The verifier step of `registerAgent` (lines 80-95): fail when no
delegate contract is configured for the chain, fail with the mismatch
message when the authorization's address differs case-insensitively from
the configured delegate, succeed otherwise. -/
def verifyDelegation (delegateAddress : Option String) (authAddress : String)
    (chainId : Nat) : Except String Unit :=
  match delegateAddress with
  | none =>
    .error ("No delegate contract configured for chainId " ++ toString chainId)
  | some d =>
    if jsToLower authAddress = jsToLower d then .ok ()
    else .error (delegateMismatchMsg authAddress d chainId)

/-! ## Receipt logs and agent-id extraction (registerService.ts 145-222) -/

/-- A receipt log as seen by the service. -/
structure ReceiptLog where
  /-- The emitting contract address. -/
  address : String
  /-- Topic hashes. -/
  topics : List String
  /-- Un-indexed data. -/
  dataField : String
deriving DecidableEq, Repr

/-- Result of `decodeEventLog` against the identity-registry ABI. -/
inductive DecodedEvent where
  /-- `Registered(uint256 indexed agentId, string tokenURI, address indexed owner)`. -/
  | registered (agentId : Nat)
  /-- `Transfer(address indexed from, address indexed to, uint256 indexed tokenId)`. -/
  | transfer (sender recipient : String) (tokenId : Nat)
deriving DecidableEq, Repr

/-- The ERC-721 zero address compared against at registerService.ts:200. -/
def zeroAddress : String := "0x0000000000000000000000000000000000000000"

/-- Predicate of the primary `find` (lines 154-170): the log decodes to a
`Registered` event.  The emitting address is used only for debug logging. -/
def isRegisteredLog (decode : ReceiptLog → Option DecodedEvent)
    (log : ReceiptLog) : Bool :=
  match decode log with
  | some (.registered _) => true
  | _ => false

/-- Predicate of the fallback `find` (lines 192-204): the log decodes to a
`Transfer` event whose `from` is the zero address.  No comparison of the
emitting address is made. -/
def isMintTransferLog (decode : ReceiptLog → Option DecodedEvent)
    (log : ReceiptLog) : Bool :=
  match decode log with
  | some (.transfer sender _ _) => sender == zeroAddress
  | _ => false

/-- Agent-id extraction from receipt logs (registerService.ts lines
145-222): first `Registered` event if any decodes, else the first mint
`Transfer` event, else no id.  `decode` stands for viem's `decodeEventLog`
applied with the identity-registry ABI (it inspects topics and data only,
never the emitting address). -/
def extractAgentId (decode : ReceiptLog → Option DecodedEvent)
    (logs : List ReceiptLog) : Option String :=
  match logs.find? (isRegisteredLog decode) with
  | some log =>
    match decode log with
    | some (.registered agentId) => some (toString agentId)
    | _ => none
  | none =>
    match logs.find? (isMintTransferLog decode) with
    | some log =>
      match decode log with
      | some (.transfer _ _ tokenId) => some (toString tokenId)
      | _ => none
    | none => none

/-! ## Metadata encoding (registerService.ts lines 69-77) -/

/-- The metadata value sent on-chain: passed through when already
`0x`-prefixed, else UTF-8-to-hex encoded with a `0x` prefix. -/
def metadataValue (v : String) : String :=
  if jsStartsWith v "0x" then v
  else "0x" ++ bytesToHex (utf8Bytes v)

/-! ## The agent registrar (`registerAgent`, registerService.ts 38-240) -/

/-- An EIP-7702 authorization as consumed by `registerAgent`. -/
structure DelegationAuthorization where
  /-- Chain id the authorization targets. -/
  chainId : Nat
  /-- The delegate contract address the authorization names. -/
  address : String
  /-- The account nonce the authorization was signed over. -/
  nonce : Nat
deriving DecidableEq, Repr

/-- The `RegisterInfo` input record. -/
structure RegisterInfo where
  /-- The agent's own address (the EIP-7702 delegated EOA). -/
  agentAddress : String
  /-- The delegation authorization. -/
  authorization : DelegationAuthorization
  /-- Optional token URI. -/
  tokenURI : Option String
  /-- Optional metadata entries (key, value). -/
  metadata : Option (List (String × String))
  /-- Optional caller-supplied network name. -/
  network : Option String
deriving Repr

/-- The `RegisterResult` output record. -/
structure RegisterResult where
  /-- Whether the registration succeeded. -/
  success : Bool
  /-- Echo of the resolved network, when set. -/
  network : Option String := none
  /-- Decoded agent id, when one was found. -/
  agentId : Option String := none
  /-- The agent address reported as owner. -/
  agentOwner : Option String := none
  /-- The transaction hash, on success. -/
  txHash : Option String := none
  /-- The error message, on failure. -/
  error : Option String := none
deriving DecidableEq, Repr

/-- The calldata shape chosen at registerService.ts lines 116-135: one of
the three `register` overloads of the delegate contract. -/
inductive RegisterCalldata where
  /-- `register(address registry)`. -/
  | noArgs (registry : String)
  /-- `register(address registry, string tokenURI)`. -/
  | withURI (registry uri : String)
  /-- `register(address registry, string tokenURI, MetadataEntry[] metadata)`. -/
  | withMetadata (registry uri : String) (entries : List (String × String))
deriving DecidableEq, Repr

/-- Overload selection (lines 116-135): metadata entries when present and
non-empty, else token URI when present, else no arguments. -/
def buildRegisterCalldata (registry : String) (tokenURI : Option String)
    (entries : List (String × String)) : RegisterCalldata :=
  if entries.length > 0 then .withMetadata registry (tokenURI.getD "") entries
  else
    match tokenURI with
    | some uri => .withURI registry uri
    | none => .noArgs registry

/-- Chain interactions `registerAgent` performs, in order. -/
inductive ChainCall where
  /-- `publicClient.getTransactionCount` (line 107). -/
  | getTransactionCount (address : String)
  /-- `walletClient.sendTransaction` with the authorization list (lines
  137-141); carries the recipient and the encoded call. -/
  | sendTransaction (recipient : String) (data : RegisterCalldata)
  /-- `publicClient.waitForTransactionReceipt` (line 143). -/
  | waitForReceipt (hash : String)
deriving DecidableEq, Repr

/-- Responses of the chain for one registration request: the current
transaction count of the agent account, the hash assigned to the submitted
transaction, and the logs of its receipt. -/
structure ChainEnv where
  /-- `getTransactionCount` response. -/
  txCount : Nat
  /-- `sendTransaction` response. -/
  txHash : String
  /-- Receipt logs. -/
  logs : List ReceiptLog
deriving Repr

/-- `registerAgent` (registerService.ts lines 38-240), with its chain
interactions made explicit as a trace: resolve the network and chain,
resolve the registry address, encode metadata, run the verifier, and only
then read the nonce, submit the EIP-7702 transaction, await the receipt and
extract the agent id.  A successful transaction always yields
`success := true`, whether or not an agent id was decodable. -/
def registerAgent (cfg : FacilitatorConfig)
    (parseHostname : String → Option String) (rpcUrlFor : Nat → String)
    (decode : ReceiptLog → Option DecodedEvent) (env : ChainEnv)
    (info : RegisterInfo) : RegisterResult × List ChainCall :=
  let chainId := info.authorization.chainId
  let network := info.network.getD ("eip155:" ++ toString chainId)
  let rpcUrl := rpcUrlFor chainId
  match mapX402NetworkToChain parseHostname (some network) (some rpcUrl) with
  | none =>
    ({ success := false, error := some ("Unsupported network: " ++ network),
       network := some network }, [])
  | some _chain =>
    let identityRegistryAddress :=
      resolveIdentityRegistryAddress
        (erc8004IdentityRegistryAddress cfg.identityRegistryEnv
          cfg.erc8004Network) chainId
    let metadataEntries :=
      (info.metadata.getD []).map (fun e => (e.1, metadataValue e.2))
    match verifyDelegation (getDelegateContractAddress cfg chainId)
        info.authorization.address chainId with
    | .error msg => ({ success := false, error := some msg }, [])
    | .ok _ =>
      let data := buildRegisterCalldata identityRegistryAddress
        info.tokenURI metadataEntries
      let agentId := extractAgentId decode env.logs
      ({ success := true, network := some network,
         txHash := some env.txHash, agentOwner := some info.agentAddress,
         agentId := agentId },
       [ChainCall.getTransactionCount info.agentAddress,
        ChainCall.sendTransaction info.agentAddress data,
        ChainCall.waitForReceipt env.txHash])

/-! ## Registration entry points (`src/index.ts`)

The registration ledger (`agentAddressStore`, a Redis-backed key-value
store) is modelled as an association list from lowercase agent address to
agent id; the two entry points are modelled as functions that return the
updated store together with whether `registerAgent` (and hence an on-chain
registration attempt) was invoked. -/

/-- The agent-address-to-agent-id ledger. -/
structure AgentStore where
  /-- Stored (address, agentId) pairs, most recent first. -/
  entries : List (String × String)
deriving DecidableEq, Repr

/-- `store.get` — the value recorded for a key, if any. -/
def AgentStore.get (s : AgentStore) (k : String) : Option String :=
  (s.entries.find? (fun e => e.1 == k)).map (fun e => e.2)

/-- `store.set` — record a value for a key, superseding earlier entries. -/
def AgentStore.set (s : AgentStore) (k v : String) : AgentStore :=
  ⟨(k, v) :: s.entries⟩

/-- The settlement-hook registration entry point (`register`, index.ts
lines 108-172).  `payTo` is the settled payment's receiver;
`hasRegistryExtension` and `registerEndpoint` reflect the `erc-8004`
extension of the payment payload; `fetchOk` is whether fetching the agent's
register endpoint succeeded; `outcome` is what `registerAgent` would return
if invoked.  Returns whether `registerAgent` was invoked and the updated
store. -/
def hookRegister (store : AgentStore) (payTo : String)
    (hasRegistryExtension : Bool) (registerEndpoint : Option String)
    (fetchOk : Bool) (outcome : RegisterResult) : Bool × AgentStore :=
  if !hasRegistryExtension then (false, store)
  else
    let agentAddress := jsToLower payTo
    match store.get agentAddress with
    | some _ => (false, store)
    | none =>
      match registerEndpoint with
      | none => (false, store)
      | some _ =>
        if !fetchOk then (false, store)
        else if outcome.success then
          match outcome.agentId with
          | some id => (true, store.set (jsToLower agentAddress) id)
          | none => (true, store)
        else (true, store)

/-- The `POST /register` entry point (index.ts lines 426-493).  For
`x402Version = 1` the agent address and authorization must be present;
`registerAgent` is then invoked unconditionally — the store is read
nowhere — and on success with a decoded id the mapping is (over)written.
Returns whether `registerAgent` was invoked and the updated store. -/
def postRegisterRoute (store : AgentStore) (x402Version : Nat)
    (agentAddress : Option String) (hasAuthorization : Bool)
    (outcome : RegisterResult) : Bool × AgentStore :=
  if x402Version = 1 ∧ agentAddress = none then (false, store)
  else if x402Version = 1 ∧ ¬hasAuthorization then (false, store)
  else
    let newStore :=
      match outcome.agentId, agentAddress with
      | some id, some addr =>
        if outcome.success ∧ x402Version = 1 then store.set (jsToLower addr) id
        else store
      | _, _ => store
    (true, newStore)

/-! ## Concrete demonstration values -/

/-- A configuration with the default global network, no overrides and the
single-chain delegate fallback `0xDele`. -/
def demoCfg : FacilitatorConfig :=
  { identityRegistryEnv := none
    erc8004Network := "eip155:8453"
    delegateOverride := fun _ => none
    delegateFallback := some "0xDele" }

/-- A URL parser that reports every RPC URL as `localhost`. -/
def demoLocalParse : String → Option String := fun _ => some "localhost"

/-- keccak256 of `Transfer(address,address,uint256)`. -/
def transferTopic : String :=
  "0xddf252ad1be2c89b69c2b068fc378daa952ba7f163c4a11628f55a4df523b3ef"

/-- A mint `Transfer` log emitted by a contract that is NOT the configured
identity registry. -/
def foreignMintLog : ReceiptLog :=
  { address := "0x1111111111111111111111111111111111111111"
    topics := [transferTopic,
      "0x0000000000000000000000000000000000000000000000000000000000000000",
      "0x0000000000000000000000002222222222222222222222222222222222222222",
      "0x0000000000000000000000000000000000000000000000000000000000000007"]
    dataField := "0x" }

/-- A topic value standing for the `Registered` event signature hash in
demonstrations. -/
def registeredTopic : String := "0xregisteredtopic"

/-- A decoder in the image of viem's `decodeEventLog` for the registry ABI
of `config/contracts.ts`: that ABI declares `Registered` as its only
event, so only `registered` decodings are ever produced; a log carrying
any other first topic (such as an ERC-721 `Transfer`) makes the decoder
throw, i.e. yields nothing. -/
def demoRegisteredDecode : ReceiptLog → Option DecodedEvent := fun log =>
  if log.topics.head? = some registeredTopic then some (.registered 5)
  else none

/-- A registration request whose authorization matches `demoCfg`'s delegate
up to case. -/
def demoInfo : RegisterInfo :=
  { agentAddress := "0xAgent"
    authorization := { chainId := 31337, address := "0xdele", nonce := 0 }
    tokenURI := none
    metadata := none
    network := none }

/-- A registration request whose authorization names an address that
differs from `demoCfg`'s delegate beyond case. -/
def demoInfoMismatch : RegisterInfo :=
  { agentAddress := "0xAgent"
    authorization := { chainId := 31337, address := "0xOTHER", nonce := 0 }
    tokenURI := none
    metadata := none
    network := none }

/-- A chain environment whose receipt contains only the foreign mint log. -/
def demoEnvForeign : ChainEnv :=
  { txCount := 0, txHash := "0xhash", logs := [foreignMintLog] }

/-- A chain environment whose receipt has no logs at all. -/
def demoEnvNoLogs : ChainEnv :=
  { txCount := 0, txHash := "0xhash", logs := [] }

/-- A successful `registerAgent` outcome carrying agent id 8. -/
def demoOutcome : RegisterResult :=
  { success := true, agentId := some "8", txHash := some "0xhash2" }

/-! ## Helper lemmas -/

theorem natToBytesBE_length (k n : Nat) : (natToBytesBE k n).length = k := by
  induction k generalizing n with
  | zero => rfl
  | succ k ih => simp [natToBytesBE, ih]

theorem encodeFeedbackAuthStruct_length (a c il e ch reg s : Nat) :
    (encodeFeedbackAuthStruct a c il e ch reg s).length = 224 := by
  simp [encodeFeedbackAuthStruct, abiWord, natToBytesBE_length]

theorem hexDigitVal_hexDigit : ∀ n < 16, hexDigitVal (hexDigit n) = some n := by
  decide

theorem hexCharsToBytes_bytesToHexChars (bs : List Nat)
    (h : ∀ b ∈ bs, b < 256) :
    hexCharsToBytes (bytesToHexChars bs) = some bs := by
  induction bs with
  | nil => rfl
  | cons b bs ih =>
    have hb : b < 256 := h b (List.mem_cons_self b bs)
    have h₁ : hexDigitVal (hexDigit (b / 16 % 16)) = some (b / 16 % 16) :=
      hexDigitVal_hexDigit _ (Nat.mod_lt _ (by omega))
    have h₂ : hexDigitVal (hexDigit (b % 16)) = some (b % 16) :=
      hexDigitVal_hexDigit _ (Nat.mod_lt _ (by omega))
    have hrest := ih (fun x hx => h x (List.mem_cons_of_mem b hx))
    have hdiv : b / 16 % 16 = b / 16 := Nat.mod_eq_of_lt (by omega)
    rw [hdiv] at h₁
    simp only [bytesToHexChars, hexCharsToBytes, hdiv, h₁, h₂, hrest]
    rw [Nat.div_add_mod]

theorem utf8EncodeCharNat_lt (c : Char) : ∀ b ∈ utf8EncodeCharNat c, b < 256 := by
  intro b hb
  simp only [utf8EncodeCharNat] at hb
  split_ifs at hb with h₁ h₂ h₃ <;> simp at hb <;> omega

theorem utf8Bytes_lt (s : String) : ∀ b ∈ utf8Bytes s, b < 256 := by
  intro b hb
  simp only [utf8Bytes, List.mem_flatten, List.mem_map] at hb
  obtain ⟨l, ⟨c, _, rfl⟩, hbl⟩ := hb
  exact utf8EncodeCharNat_lt c b hbl

theorem erc8004IdentityRegistryAddress_ne_empty (envVar : Option String)
    (networkEnv : String) :
    erc8004IdentityRegistryAddress envVar networkEnv ≠ "" := by
  have hdef : (getDefaultErc8004Addresses networkEnv).1 ≠ "" := by
    simp only [getDefaultErc8004Addresses]
    split_ifs <;> decide
  cases envVar with
  | none => simpa [erc8004IdentityRegistryAddress, jsOrString] using hdef
  | some v =>
    by_cases hv : v = ""
    · simpa [erc8004IdentityRegistryAddress, jsOrString, hv] using hdef
    · simp [erc8004IdentityRegistryAddress, jsOrString, hv]

/-! ## Claim theorems -/

/-- Claim C1: every invocation of `generateFeedbackAuth` returns exactly
the ABI encoding of the seven fields (agentId, clientAddress, indexLimit,
expiry, chainId, identityRegistry, signerAddress) in that fixed order,
concatenated with the signature computed over keccak256 of the literal
prefix `"\x19Ethereum Signed Message:\n32"` ++ keccak256 of that struct
encoding; the token length is the struct-encoding length (224) plus 65. -/
theorem feedbackAuth_token_layout (keccak256 sign : List Nat → List Nat)
    (hsign : ∀ h, (sign h).length = 65)
    (agentId clientAddress signerAddress chainId indexLimit expiry
      identityRegistry now : Nat) (hexp : expiry ≠ 0) :
    generateFeedbackAuth keccak256 sign agentId clientAddress signerAddress
        chainId (some expiry) indexLimit identityRegistry now =
      encodeFeedbackAuthStruct agentId clientAddress indexLimit expiry
          chainId identityRegistry signerAddress ++
        sign (keccak256 (personalMessageTag ++
          keccak256 (encodeFeedbackAuthStruct agentId clientAddress
            indexLimit expiry chainId identityRegistry signerAddress)))
    ∧ (generateFeedbackAuth keccak256 sign agentId clientAddress
        signerAddress chainId (some expiry) indexLimit identityRegistry
        now).length =
      (encodeFeedbackAuthStruct agentId clientAddress indexLimit expiry
        chainId identityRegistry signerAddress).length + 65
    ∧ (encodeFeedbackAuthStruct agentId clientAddress indexLimit expiry
        chainId identityRegistry signerAddress).length = 224 := by
  have he : effectiveExpiry (some expiry) now = expiry := by
    simp [effectiveExpiry, hexp]
  refine ⟨?_, ?_, encodeFeedbackAuthStruct_length _ _ _ _ _ _ _⟩
  · simp [generateFeedbackAuth, he]
  · simp [generateFeedbackAuth, he, hsign]

/-- Witness for C1 at concrete inputs: a token built with a 65-byte signer
has length 224 + 65. -/
theorem feedbackAuth_token_layout_witness :
    (generateFeedbackAuth (fun _ => List.replicate 32 1)
      (fun _ => List.replicate 65 2) 42 100 200 11155111 (some 5000) 1000
      300 0).length = 224 + 65 := by
  have h := feedbackAuth_token_layout (fun _ => List.replicate 32 1)
    (fun _ => List.replicate 65 2) (fun _ => by simp) 42 100 200 11155111
    1000 5000 300 0 (by decide)
  rw [h.2.1, h.2.2]

/-- Claim C7: two invocations of the issuer with identical arguments (in
particular the same explicitly supplied, non-zero expiry) and the same
signer produce byte-identical tokens, regardless of the invocation times. -/
theorem feedbackAuth_deterministic (keccak256 sign : List Nat → List Nat)
    (agentId clientAddress signerAddress chainId indexLimit expiry
      identityRegistry : Nat) (now₁ now₂ : Nat) (hexp : expiry ≠ 0) :
    generateFeedbackAuth keccak256 sign agentId clientAddress signerAddress
      chainId (some expiry) indexLimit identityRegistry now₁ =
    generateFeedbackAuth keccak256 sign agentId clientAddress signerAddress
      chainId (some expiry) indexLimit identityRegistry now₂ := by
  simp [generateFeedbackAuth, effectiveExpiry, hexp]

/-- Witness for C7: tokens issued at times 0 and 999 with the same
arguments coincide. -/
theorem feedbackAuth_deterministic_witness :
    generateFeedbackAuth (fun _ => List.replicate 32 1)
      (fun _ => List.replicate 65 2) 42 100 200 11155111 (some 5000) 1000
      300 0 =
    generateFeedbackAuth (fun _ => List.replicate 32 1)
      (fun _ => List.replicate 65 2) 42 100 200 11155111 (some 5000) 1000
      300 999 :=
  feedbackAuth_deterministic (fun _ => List.replicate 32 1)
    (fun _ => List.replicate 65 2) 42 100 200 11155111 1000 5000 300 0 999
    (by decide)

/-- Claim C2: with a delegate contract configured for the chain, the
Verifier step of `registerAgent` passes if and only if the authorization's
address equals the configured delegate case-insensitively; on mismatch it
fails with the exact message built from both the submitted and the expected
address (so the message contains both), and never silently corrects. -/
theorem verifier_delegate_match_iff (cfg : FacilitatorConfig)
    (chainId : Nat) (got d : String)
    (hconf : getDelegateContractAddress cfg chainId = some d) :
    (verifyDelegation (getDelegateContractAddress cfg chainId) got chainId =
        .ok () ↔ jsToLower got = jsToLower d)
    ∧ (¬ jsToLower got = jsToLower d →
        verifyDelegation (getDelegateContractAddress cfg chainId) got
            chainId = .error (delegateMismatchMsg got d chainId)
        ∧ ∃ l₁ l₂ l₃ : List Char,
            (delegateMismatchMsg got d chainId).data =
              l₁ ++ (got.data ++ (l₂ ++ (d.data ++ l₃)))) := by
  rw [hconf]
  constructor
  · constructor
    · intro h
      by_contra hne
      simp [verifyDelegation, hne] at h
    · intro h
      simp [verifyDelegation, h]
  · intro hne
    refine ⟨by simp [verifyDelegation, hne], ("Authorization address (").data,
      (") does not match delegate contract address (").data,
      (") for chainId " ++ toString chainId).data, ?_⟩
    simp [delegateMismatchMsg, String.data_append]

/-- Witness for C2: under `demoCfg` on chain 31337 the configured delegate
is `0xDele`; an authorization naming `0xdELE` passes and one naming
`0xOTHER` is rejected with the message naming both addresses. -/
theorem verifier_delegate_match_iff_witness :
    verifyDelegation (getDelegateContractAddress demoCfg 31337) "0xdELE"
        31337 = .ok ()
    ∧ verifyDelegation (getDelegateContractAddress demoCfg 31337) "0xOTHER"
        31337 = .error (delegateMismatchMsg "0xOTHER" "0xDele" 31337) :=
  ⟨((verifier_delegate_match_iff demoCfg 31337 "0xdELE" "0xDele" rfl).1).mpr
      (by decide),
    (((verifier_delegate_match_iff demoCfg 31337 "0xOTHER" "0xDele" rfl).2)
      (by decide)).1⟩

/-- Claim C10: whenever the RPC URL's hostname parses to `localhost` or
`127.0.0.1`, `mapX402NetworkToChain` returns the anvil chain (chain id
31337) for every network argument whatsoever. -/
theorem local_rpc_forces_anvil (parseHostname : String → Option String)
    (network : Option String) (rpcUrl : String)
    (h : parseHostname rpcUrl = some "localhost" ∨
      parseHostname rpcUrl = some "127.0.0.1") :
    mapX402NetworkToChain parseHostname network (some rpcUrl) =
      some EvmChain.anvil
    ∧ EvmChain.chainId .anvil = 31337 := by
  have hl : isLocalRPC parseHostname (some rpcUrl) = true := by
    rcases h with h | h <;> simp [isLocalRPC, h]
  exact ⟨by simp [mapX402NetworkToChain, hl], rfl⟩

/-- Witness for C10: with a parser reporting hostname `localhost`, even the
otherwise-unsupported network `eip155:1` maps to the anvil chain. -/
theorem local_rpc_forces_anvil_witness :
    mapX402NetworkToChain demoLocalParse (some "eip155:1")
      (some "http://localhost:8545") = some EvmChain.anvil :=
  (local_rpc_forces_anvil demoLocalParse (some "eip155:1")
    "http://localhost:8545" (Or.inl rfl)).1

/-- Claim C8: a metadata value already starting with `0x` is passed through
unchanged, and any other value is UTF-8-to-hex encoded with a `0x` prefix
such that hex-decoding the payload (after the prefix) yields back the
original UTF-8 bytes. -/
theorem metadata_value_roundtrip (v : String) :
    (jsStartsWith v "0x" = true → metadataValue v = v)
    ∧ (jsStartsWith v "0x" = false →
        metadataValue v = "0x" ++ bytesToHex (utf8Bytes v)
        ∧ hexCharsToBytes ((metadataValue v).data.drop 2) =
            some (utf8Bytes v)) := by
  constructor
  · intro h
    simp [metadataValue, h]
  · intro h
    have hm : metadataValue v = "0x" ++ bytesToHex (utf8Bytes v) := by
      simp [metadataValue, h]
    refine ⟨hm, ?_⟩
    rw [hm]
    exact hexCharsToBytes_bytesToHexChars _ (utf8Bytes_lt v)

/-- Witness for C8: `0xab` is passed through; `hi` is hex-encoded and
decodes back to its UTF-8 bytes. -/
theorem metadata_value_roundtrip_witness :
    metadataValue "0xab" = "0xab"
    ∧ hexCharsToBytes ((metadataValue "hi").data.drop 2) =
        some (utf8Bytes "hi") :=
  ⟨(metadata_value_roundtrip "0xab").1 (by decide),
    ((metadata_value_roundtrip "hi").2 (by decide)).2⟩

/-- Counterexample to claim C4: chain id 424242 has no entry in the
built-in default table and no override is set, yet the registry resolution
of `registerAgent` does not fail — under the default environment
(`ERC8004_NETWORK = eip155:8453`) it silently returns the globally
configured Base-mainnet registry address. -/
theorem registry_unknown_chain_cex :
    ¬(424242 = 1 ∨ 424242 = 8453 ∨ 424242 = 11155111 ∨ 424242 = 84532)
    ∧ resolveIdentityRegistryAddress
        (erc8004IdentityRegistryAddress none "eip155:8453") 424242 =
      mainnetIdentityRegistry :=
  ⟨by decide, by decide⟩

/-- Claim C4 as amended: resolving the registry address in `registerAgent`
never fails and never even consults the request's chain id — the exported
`ERC8004_IDENTITY_REGISTRY_ADDRESS` constant is pre-defaulted from the
global `ERC8004_NETWORK` and is always non-empty, so the per-chain
fallback of registerService.ts:59 is unreachable and every chain id,
known or unknown, resolves to that same globally configured address. -/
theorem registry_resolution_chain_independent (envVar : Option String)
    (networkEnv : String) (chainId : Nat) :
    resolveIdentityRegistryAddress
        (erc8004IdentityRegistryAddress envVar networkEnv) chainId =
      erc8004IdentityRegistryAddress envVar networkEnv := by
  have h := erc8004IdentityRegistryAddress_ne_empty envVar networkEnv
  simp [resolveIdentityRegistryAddress, h]

/-- Counterexample to claim C5: the ledger already maps `0xagent` to agent
id 7, yet `POST /register` still invokes `registerAgent` (an on-chain
registration) and overwrites the record with the new id 8 instead of
returning the existing one. -/
theorem post_register_ignores_ledger_cex :
    AgentStore.get ⟨[("0xagent", "7")]⟩ "0xagent" = some "7"
    ∧ (postRegisterRoute ⟨[("0xagent", "7")]⟩ 1 (some "0xAgent") true
        demoOutcome).1 = true
    ∧ AgentStore.get (postRegisterRoute ⟨[("0xagent", "7")]⟩ 1
        (some "0xAgent") true demoOutcome).2 "0xagent" = some "8" :=
  ⟨rfl, rfl, rfl⟩

/-- Claim C5 as amended: only the settlement-hook entry point consults the
ledger — when a record exists for the (lowercased) agent address it skips
`registerAgent` entirely and leaves the store unchanged; the `POST
/register` endpoint performs a registration regardless of existing
records. -/
theorem hook_register_ledger_noop (store : AgentStore) (payTo : String)
    (registerEndpoint : Option String) (fetchOk : Bool)
    (outcome : RegisterResult) (agentId : String)
    (h : store.get (jsToLower payTo) = some agentId) :
    hookRegister store payTo true registerEndpoint fetchOk outcome =
      (false, store) := by
  simp [hookRegister, h]

/-- Witness for the amended C5: a hook invocation for `0xAgent` with the
record `("0xagent", "7")` present is a no-op. -/
theorem hook_register_ledger_noop_witness :
    hookRegister ⟨[("0xagent", "7")]⟩ "0xAgent" true (some "/register-info")
      true demoOutcome = (false, ⟨[("0xagent", "7")]⟩) :=
  hook_register_ledger_noop _ _ _ _ _ "7" rfl

/-- Claim C3: the identity-registry ABI handed to `decodeEventLog`
(`config/contracts.ts`) declares `Registered` as its only event, so the
decoder can never produce a `Transfer` decoding (hypothesis `himg`).
Consequently, whenever the `Registered` event cannot be decoded and the
fallback extraction path runs, no mint `Transfer` log is ever matched and
no agent id is extracted at all — in particular an agent id is taken from
a `Transfer`-from-zero log only if its emitter is the configured registry
(vacuously), and a mint event emitted by any other contract never yields
the agent id. -/
theorem fallback_mint_never_extracts
    (decode : ReceiptLog → Option DecodedEvent)
    (himg : ∀ log e, decode log = some e →
      ∃ id, e = DecodedEvent.registered id)
    (logs : List ReceiptLog) (registryAddress : String)
    (hfall : logs.find? (isRegisteredLog decode) = none) :
    extractAgentId decode logs = none
    ∧ (∀ log ∈ logs, isMintTransferLog decode log = false)
    ∧ (∀ log ∈ logs, isMintTransferLog decode log = true →
        log.address = registryAddress) := by
  have hmint : ∀ log ∈ logs, isMintTransferLog decode log = false := by
    intro log _
    cases hd : decode log with
    | none => simp [isMintTransferLog, hd]
    | some e =>
      obtain ⟨id, rfl⟩ := himg log e hd
      simp [isMintTransferLog, hd]
  have hfind : logs.find? (isMintTransferLog decode) = none := by
    rw [List.find?_eq_none]
    intro x hx
    simp [hmint x hx]
  refine ⟨by simp [extractAgentId, hfall, hfind], hmint, ?_⟩
  intro log hl htrue
  rw [hmint log hl] at htrue
  exact Bool.noConfusion htrue

/-- Witness for C3: under a decoder within the real ABI's image, the
receipt containing only the foreign mint `Transfer` log yields no agent
id. -/
theorem fallback_mint_never_extracts_witness :
    extractAgentId demoRegisteredDecode demoEnvForeign.logs = none :=
  (fallback_mint_never_extracts demoRegisteredDecode
    (fun log e h => by
      simp only [demoRegisteredDecode] at h
      split at h
      · injection h with h'
        exact ⟨5, h'.symm⟩
      · exact Option.noConfusion h)
    demoEnvForeign.logs sepoliaIdentityRegistry rfl).1

/-- Claim C6: whenever the Verifier rejects the authorization for a
delegate-address mismatch (a delegate is configured and the addresses
differ case-insensitively, on a resolvable network), `registerAgent`
returns the failure with an empty chain-call trace: no transaction-count
read, no transaction submission, no receipt wait. -/
theorem mismatch_rejects_before_chain_calls (cfg : FacilitatorConfig)
    (parseHostname : String → Option String) (rpcUrlFor : Nat → String)
    (decode : ReceiptLog → Option DecodedEvent) (env : ChainEnv)
    (info : RegisterInfo) (c : EvmChain) (d : String)
    (hchain : mapX402NetworkToChain parseHostname
      (some (info.network.getD
        ("eip155:" ++ toString info.authorization.chainId)))
      (some (rpcUrlFor info.authorization.chainId)) = some c)
    (hdel : getDelegateContractAddress cfg info.authorization.chainId =
      some d)
    (hmis : ¬ jsToLower info.authorization.address = jsToLower d) :
    (registerAgent cfg parseHostname rpcUrlFor decode env info).2 = []
    ∧ (registerAgent cfg parseHostname rpcUrlFor decode env
        info).1.success = false
    ∧ (registerAgent cfg parseHostname rpcUrlFor decode env info).1.error =
        some (delegateMismatchMsg info.authorization.address d
          info.authorization.chainId) := by
  have hv : verifyDelegation
      (getDelegateContractAddress cfg info.authorization.chainId)
      info.authorization.address info.authorization.chainId =
      .error (delegateMismatchMsg info.authorization.address d
        info.authorization.chainId) := by
    rw [hdel]
    simp [verifyDelegation, hmis]
  simp [registerAgent, hchain, hv]

/-- Witness for C6: a mismatching authorization under `demoCfg` yields a
failure with no chain calls. -/
theorem mismatch_rejects_before_chain_calls_witness :
    (registerAgent demoCfg demoLocalParse (fun _ => "http://x")
      (fun _ => none) demoEnvNoLogs demoInfoMismatch).2 = []
    ∧ (registerAgent demoCfg demoLocalParse (fun _ => "http://x")
        (fun _ => none) demoEnvNoLogs demoInfoMismatch).1.success = false :=
  ⟨(mismatch_rejects_before_chain_calls demoCfg demoLocalParse
      (fun _ => "http://x") (fun _ => none) demoEnvNoLogs demoInfoMismatch
      .anvil "0xDele" rfl rfl (by decide)).1,
    (mismatch_rejects_before_chain_calls demoCfg demoLocalParse
      (fun _ => "http://x") (fun _ => none) demoEnvNoLogs demoInfoMismatch
      .anvil "0xDele" rfl rfl (by decide)).2.1⟩

/-- Claim C9: when the network resolves, the Verifier passes and the
transaction confirms but no agent id can be decoded from the receipt logs,
`registerAgent` still returns success with the transaction hash set and
`agentId` absent. -/
theorem undecodable_agent_id_still_success (cfg : FacilitatorConfig)
    (parseHostname : String → Option String) (rpcUrlFor : Nat → String)
    (decode : ReceiptLog → Option DecodedEvent) (env : ChainEnv)
    (info : RegisterInfo) (c : EvmChain)
    (hchain : mapX402NetworkToChain parseHostname
      (some (info.network.getD
        ("eip155:" ++ toString info.authorization.chainId)))
      (some (rpcUrlFor info.authorization.chainId)) = some c)
    (hver : verifyDelegation
      (getDelegateContractAddress cfg info.authorization.chainId)
      info.authorization.address info.authorization.chainId = .ok ())
    (hdec : extractAgentId decode env.logs = none) :
    (registerAgent cfg parseHostname rpcUrlFor decode env info).1.success =
      true
    ∧ (registerAgent cfg parseHostname rpcUrlFor decode env info).1.txHash =
        some env.txHash
    ∧ (registerAgent cfg parseHostname rpcUrlFor decode env
        info).1.agentId = none := by
  simp [registerAgent, hchain, hver, hdec]

/-- Witness for C9: an empty receipt yields success with the transaction
hash and no agent id. -/
theorem undecodable_agent_id_still_success_witness :
    (registerAgent demoCfg demoLocalParse (fun _ => "http://x")
      (fun _ => none) demoEnvNoLogs demoInfo).1.success = true
    ∧ (registerAgent demoCfg demoLocalParse (fun _ => "http://x")
        (fun _ => none) demoEnvNoLogs demoInfo).1.txHash = some "0xhash"
    ∧ (registerAgent demoCfg demoLocalParse (fun _ => "http://x")
        (fun _ => none) demoEnvNoLogs demoInfo).1.agentId = none :=
  undecodable_agent_id_still_success demoCfg demoLocalParse
    (fun _ => "http://x") (fun _ => none) demoEnvNoLogs demoInfo .anvil rfl
    rfl rfl
